import Mathlib

/-!
Verification development for the air-fryer PID simulation
(`simular_air_fryer` in `tdc.py`).

The simulation loop is embedded over `ℚ` (the source uses Python floats;
the claims under scrutiny are about the exact arithmetic structure of the
recurrence, so we model real-number arithmetic exactly).

Modelling notes, traceable to the source:
* `np.arange(0, duracion + delta_t, delta_t)` produces
  `max 0 ⌈(duracion + delta_t) / delta_t⌉` elements `i * delta_t`
  (NumPy documents the element count of `arange(start, stop, step)` as
  `ceil((stop - start) / step)`, clamped at 0); with `delta_t = 0` it
  raises `ZeroDivisionError`.
* The function raises (and hence returns nothing) exactly when:
  `delta_t = 0` (inside `np.arange`); the time grid is empty
  (`theta_o[0] = ...` raises `IndexError`); or `tau_s = 0` and the loop
  body executes at least once (`1/tau_s` raises `ZeroDivisionError`).
  This is captured by returning `Option Resultado`.
* Everything else is a direct transcription of the loop body.
-/

namespace Tdc

/-- The module-level constant `AMBIENT_TEMPERATURE = 20.0`. -/
def AMBIENT_TEMPERATURE : ℚ := 20

/-- One parsed disturbance, as the dictionaries
`{'tiempo': ..., 'valor': ..., 'duracion': ...}` passed in
`perturbaciones_data`. -/
structure Pert where
  tiempo : ℚ
  valor : ℚ
  duracion : ℚ
deriving DecidableEq, Repr

/-- The arguments of `simular_air_fryer`, with the source's parameter
names. -/
structure Params where
  theta_i : ℚ
  kp_c : ℚ
  ki_c : ℚ
  kd_c : ℚ
  tau_s : ℚ
  delta_t : ℚ
  duracion : ℚ
  deadband_threshold : ℚ
  perturbaciones_data : List Pert
deriving DecidableEq, Repr

/-- The time grid value `tiempo[i] = i * delta_t` of
`np.arange(0, duracion + delta_t, delta_t)`. -/
def tiempo (P : Params) (i : ℕ) : ℚ := (i : ℚ) * P.delta_t

/-- `num_pasos = len(tiempo)`: `np.arange(0, stop, step)` has
`max 0 ⌈stop / step⌉` elements (defined for `delta_t ≠ 0`;
`delta_t = 0` is handled as an error in `simular_air_fryer`). -/
def num_pasos (P : Params) : ℕ :=
  (⌈(P.duracion + P.delta_t) / P.delta_t⌉).toNat

/-- The per-step data of the loop: the six series values written at index
`i`, plus the two scalars carried across iterations
(`integral_error`, `ultimo_error`). -/
structure StepData where
  theta_o : ℚ
  theta_controlador : ℚ
  f : ℚ
  error : ℚ
  p_total : ℚ
  effective_error : ℚ
  integral_error : ℚ
  ultimo_error : ℚ
deriving DecidableEq, Repr

/-- Index 0: `theta_o[0] = AMBIENT_TEMPERATURE`, every other array entry
still `0` from `np.zeros`, and `integral_error = 0.0`,
`ultimo_error = 0.0`. -/
def estado_inicial : StepData :=
  { theta_o := AMBIENT_TEMPERATURE
    theta_controlador := 0
    f := 0
    error := 0
    p_total := 0
    effective_error := 0
    integral_error := 0
    ultimo_error := 0 }

/-- The saturation of the controller output: the two sequential `if`
statements clamping `theta_controlador[i]` to `[0, 200]`. -/
def saturar (x : ℚ) : ℚ :=
  let x1 := if x < 0 then (0 : ℚ) else x
  if x1 > 200 then 200 else x1

/-- The inner loop over `perturbaciones_data` accumulating
`current_perturbation_value` at time `t`:
`if tiempo_inicio <= t < tiempo_inicio + duracion_p` add `valor_p`. -/
def perturbacion_total (perts : List Pert) (t : ℚ) : ℚ :=
  perts.foldl
    (fun acc d => if d.tiempo ≤ t ∧ t < d.tiempo + d.duracion then acc + d.valor else acc)
    0

/-- One iteration of the `for i in range(1, num_pasos)` body, mapping the
data of step `i-1` to the data of step `i`. -/
def paso (P : Params) (i : ℕ) (s : StepData) : StepData :=
  let f := s.theta_o
  let error := P.theta_i - f
  let effective_error := if |error| < P.deadband_threshold then 0 else error
  let integral_error :=
    if effective_error ≠ 0 then s.integral_error + effective_error * P.delta_t
    else s.integral_error
  let derivada_error := (effective_error - s.ultimo_error) / P.delta_t
  let tc_sin_saturar := P.kp_c * effective_error + P.ki_c * integral_error +
    P.kd_c * derivada_error
  let theta_controlador := saturar tc_sin_saturar
  let p_tot := perturbacion_total P.perturbaciones_data (tiempo P i)
  let dtheta_o_dt := (1 / P.tau_s) * (theta_controlador - s.theta_o) + p_tot
  let theta_sin_piso := s.theta_o + dtheta_o_dt * P.delta_t
  let theta_o := if theta_sin_piso < AMBIENT_TEMPERATURE then AMBIENT_TEMPERATURE
    else theta_sin_piso
  { theta_o := theta_o
    theta_controlador := theta_controlador
    f := f
    error := error
    p_total := p_tot
    effective_error := effective_error
    integral_error := integral_error
    ultimo_error := effective_error }

/-- The loop state after step `i` (index 0 is the initial state). -/
def estado (P : Params) : ℕ → StepData
  | 0 => estado_inicial
  | i + 1 => paso P (i + 1) (estado P i)

/-- The seven returned arrays of `simular_air_fryer`. -/
structure Resultado where
  tiempo : List ℚ
  theta_o : List ℚ
  theta_controlador : List ℚ
  f : List ℚ
  error : List ℚ
  p_total : List ℚ
  effective_error_for_plotting : List ℚ
deriving DecidableEq, Repr

/-- The arrays a completed run returns. -/
def resultado (P : Params) : Resultado :=
  { tiempo := (List.range (num_pasos P)).map (tiempo P)
    theta_o := (List.range (num_pasos P)).map (fun i => (estado P i).theta_o)
    theta_controlador :=
      (List.range (num_pasos P)).map (fun i => (estado P i).theta_controlador)
    f := (List.range (num_pasos P)).map (fun i => (estado P i).f)
    error := (List.range (num_pasos P)).map (fun i => (estado P i).error)
    p_total := (List.range (num_pasos P)).map (fun i => (estado P i).p_total)
    effective_error_for_plotting :=
      (List.range (num_pasos P)).map (fun i => (estado P i).effective_error) }

/-- `simular_air_fryer`: returns the arrays, or `none` where the Python
function raises an exception (see the modelling notes above). The source
contains no input validation whatsoever; these are the only failure
modes. -/
def simular_air_fryer (P : Params) : Option Resultado :=
  if P.delta_t = 0 then none
  else if num_pasos P = 0 then none
  else if P.tau_s = 0 ∧ 2 ≤ num_pasos P then none
  else some (resultado P)

/-! ### Helper lemmas: unfolding the recurrence one step -/

lemma estado_zero (P : Params) : estado P 0 = estado_inicial := rfl

lemma estado_succ (P : Params) (i : ℕ) :
    estado P (i + 1) = paso P (i + 1) (estado P i) := rfl

lemma paso_f (P : Params) (i : ℕ) (s : StepData) : (paso P i s).f = s.theta_o := rfl

lemma paso_error (P : Params) (i : ℕ) (s : StepData) :
    (paso P i s).error = P.theta_i - s.theta_o := rfl

lemma paso_effective_error (P : Params) (i : ℕ) (s : StepData) :
    (paso P i s).effective_error =
      if |P.theta_i - s.theta_o| < P.deadband_threshold then 0
      else P.theta_i - s.theta_o := rfl

lemma paso_integral_error (P : Params) (i : ℕ) (s : StepData) :
    (paso P i s).integral_error =
      if (paso P i s).effective_error ≠ 0 then
        s.integral_error + (paso P i s).effective_error * P.delta_t
      else s.integral_error := rfl

lemma paso_ultimo_error (P : Params) (i : ℕ) (s : StepData) :
    (paso P i s).ultimo_error = (paso P i s).effective_error := rfl

lemma paso_theta_controlador (P : Params) (i : ℕ) (s : StepData) :
    (paso P i s).theta_controlador =
      saturar (P.kp_c * (paso P i s).effective_error +
        P.ki_c * (paso P i s).integral_error +
        P.kd_c * (((paso P i s).effective_error - s.ultimo_error) / P.delta_t)) := rfl

lemma paso_p_total (P : Params) (i : ℕ) (s : StepData) :
    (paso P i s).p_total = perturbacion_total P.perturbaciones_data (tiempo P i) := rfl

lemma paso_theta_o (P : Params) (i : ℕ) (s : StepData) :
    (paso P i s).theta_o =
      if s.theta_o + ((1 / P.tau_s) * ((paso P i s).theta_controlador - s.theta_o) +
            (paso P i s).p_total) * P.delta_t < AMBIENT_TEMPERATURE
      then AMBIENT_TEMPERATURE
      else s.theta_o + ((1 / P.tau_s) * ((paso P i s).theta_controlador - s.theta_o) +
            (paso P i s).p_total) * P.delta_t := rfl

/-- The clamp always lands in `[0, 200]`. -/
lemma saturar_mem (x : ℚ) : 0 ≤ saturar x ∧ saturar x ≤ 200 := by
  unfold saturar
  dsimp only
  split_ifs <;> constructor <;> linarith

/-- A successful run returns exactly the arrays of `resultado`, and
records which failure conditions were absent. -/
lemma simular_eq_some {P : Params} {r : Resultado}
    (h : simular_air_fryer P = some r) :
    r = resultado P ∧ P.delta_t ≠ 0 ∧ num_pasos P ≠ 0 ∧
      ¬(P.tau_s = 0 ∧ 2 ≤ num_pasos P) := by
  unfold simular_air_fryer at h
  split_ifs at h with h1 h2 h3
  exact ⟨(Option.some.inj h).symm, h1, h2, h3⟩

lemma simular_valido (P : Params) (h1 : P.delta_t ≠ 0) (h2 : num_pasos P ≠ 0)
    (h3 : ¬(P.tau_s = 0 ∧ 2 ≤ num_pasos P)) :
    simular_air_fryer P = some (resultado P) := by
  unfold simular_air_fryer
  rw [if_neg h1, if_neg h2, if_neg h3]

/-- Every entry of the temperature series sits above the ambient floor. -/
lemma theta_o_ge_ambiente (P : Params) : ∀ i : ℕ,
    AMBIENT_TEMPERATURE ≤ (estado P i).theta_o := by
  intro i
  cases i with
  | zero => exact le_refl _
  | succ j =>
    rw [estado_succ, paso_theta_o]
    split_ifs with h
    · exact le_refl _
    · exact le_of_not_lt h

lemma get?_map_range (f : ℕ → ℚ) (n i : ℕ) :
    ((List.range n).map f).get? i = if i < n then some (f i) else none := by
  rcases lt_or_le i n with h | h
  · simp [List.get?_eq_getElem?, h]
  · simp [List.get?_eq_getElem?, Nat.not_lt.mpr h, List.getElem?_eq_none, Nat.le_of_lt]
    omega

lemma perturbacion_total_foldl (t : ℚ) (l : List Pert) (acc : ℚ) :
    List.foldl
      (fun a d => if d.tiempo ≤ t ∧ t < d.tiempo + d.duracion then a + d.valor else a)
      acc l =
      acc + (l.map fun d =>
        if d.tiempo ≤ t ∧ t < d.tiempo + d.duracion then d.valor else 0).sum := by
  induction l generalizing acc with
  | nil => simp
  | cons d l ih =>
    rw [List.foldl_cons, ih, List.map_cons, List.sum_cons]
    split_ifs <;> ring

/-- The per-step disturbance accumulation is the sum of the magnitudes of
the disturbances whose half-open window contains `t`. -/
lemma perturbacion_total_eq_sum (l : List Pert) (t : ℚ) :
    perturbacion_total l t =
      (l.map fun d =>
        if d.tiempo ≤ t ∧ t < d.tiempo + d.duracion then d.valor else 0).sum := by
  rw [perturbacion_total, perturbacion_total_foldl, zero_add]

lemma num_pasos_eval (P : Params) (k : ℤ)
    (h : (P.duracion + P.delta_t) / P.delta_t = (k : ℚ)) :
    num_pasos P = k.toNat := by
  rw [num_pasos, h, Int.ceil_intCast]

/-- Inside the deadband (with no accumulated integral and a zero previous
effective error) one step produces a zero effective error, keeps the
integral at zero and outputs zero. -/
lemma paso_en_banda {P : Params} {i : ℕ} {s : StepData}
    (hd : |P.theta_i - s.theta_o| < P.deadband_threshold)
    (hu : s.ultimo_error = 0) (hs : s.integral_error = 0) :
    (paso P i s).effective_error = 0
  ∧ (paso P i s).integral_error = 0
  ∧ (paso P i s).theta_controlador = 0 := by
  have heff : (paso P i s).effective_error = 0 := by
    rw [paso_effective_error, if_pos hd]
  have hint : (paso P i s).integral_error = 0 := by
    rw [paso_integral_error, if_neg (not_not_intro heff), hs]
  refine ⟨heff, hint, ?_⟩
  rw [paso_theta_controlador, heff, hint, hu]
  norm_num [saturar]

/-! ### Concrete configurations used by the scenario claims -/

/-- The end-to-end scenario of the spec: default parameters with the
single disturbance `{600, -2.0, 40}`. -/
def escenario : Params :=
  { theta_i := 180, kp_c := 2, ki_c := 1/1000, kd_c := 5, tau_s := 175,
    delta_t := 1, duracion := 3600, deadband_threshold := 5,
    perturbaciones_data := [⟨600, -2, 40⟩] }

/-- A small well-formed configuration: three samples, no disturbances. -/
def config_pequena : Params :=
  { theta_i := 180, kp_c := 2, ki_c := 1/1000, kd_c := 5, tau_s := 1,
    delta_t := 1, duracion := 2, deadband_threshold := 5,
    perturbaciones_data := [] }

/-- A configuration violating the spec's validity condition `τ > 0`. -/
def config_tau_negativa : Params :=
  { theta_i := 180, kp_c := 2, ki_c := 1/1000, kd_c := 5, tau_s := -1,
    delta_t := 1, duracion := 2, deadband_threshold := 5,
    perturbaciones_data := [] }

/-- A valid configuration whose time step does not divide the duration. -/
def config_paso_grande : Params :=
  { theta_i := 180, kp_c := 2, ki_c := 1/1000, kd_c := 5, tau_s := 1,
    delta_t := 2, duracion := 1, deadband_threshold := 5,
    perturbaciones_data := [] }

/-- A configuration whose starting error lies inside the deadband. -/
def config_banda_muerta : Params :=
  { theta_i := 22, kp_c := 2, ki_c := 1/1000, kd_c := 5, tau_s := 1,
    delta_t := 1, duracion := 10, deadband_threshold := 5,
    perturbaciones_data := [] }

lemma res_tiempo_get? (P : Params) (i : ℕ) :
    (resultado P).tiempo.get? i =
      if i < num_pasos P then some (tiempo P i) else none := by
  rw [show (resultado P).tiempo = (List.range (num_pasos P)).map (tiempo P)
    from rfl, get?_map_range]

lemma res_theta_o_get? (P : Params) (i : ℕ) :
    (resultado P).theta_o.get? i =
      if i < num_pasos P then some ((estado P i).theta_o) else none := by
  rw [show (resultado P).theta_o =
      (List.range (num_pasos P)).map (fun i => (estado P i).theta_o)
    from rfl, get?_map_range]

lemma res_theta_controlador_get? (P : Params) (i : ℕ) :
    (resultado P).theta_controlador.get? i =
      if i < num_pasos P then some ((estado P i).theta_controlador) else none := by
  rw [show (resultado P).theta_controlador =
      (List.range (num_pasos P)).map (fun i => (estado P i).theta_controlador)
    from rfl, get?_map_range]

lemma res_f_get? (P : Params) (i : ℕ) :
    (resultado P).f.get? i =
      if i < num_pasos P then some ((estado P i).f) else none := by
  rw [show (resultado P).f =
      (List.range (num_pasos P)).map (fun i => (estado P i).f)
    from rfl, get?_map_range]

lemma res_error_get? (P : Params) (i : ℕ) :
    (resultado P).error.get? i =
      if i < num_pasos P then some ((estado P i).error) else none := by
  rw [show (resultado P).error =
      (List.range (num_pasos P)).map (fun i => (estado P i).error)
    from rfl, get?_map_range]

lemma res_p_total_get? (P : Params) (i : ℕ) :
    (resultado P).p_total.get? i =
      if i < num_pasos P then some ((estado P i).p_total) else none := by
  rw [show (resultado P).p_total =
      (List.range (num_pasos P)).map (fun i => (estado P i).p_total)
    from rfl, get?_map_range]

lemma res_effective_error_get? (P : Params) (i : ℕ) :
    (resultado P).effective_error_for_plotting.get? i =
      if i < num_pasos P then some ((estado P i).effective_error) else none := by
  rw [show (resultado P).effective_error_for_plotting =
      (List.range (num_pasos P)).map (fun i => (estado P i).effective_error)
    from rfl, get?_map_range]

lemma res_tiempo_length (P : Params) :
    (resultado P).tiempo.length = num_pasos P := by
  rw [show (resultado P).tiempo = (List.range (num_pasos P)).map (tiempo P)
    from rfl]
  simp

lemma res_theta_o_length (P : Params) :
    (resultado P).theta_o.length = num_pasos P := by
  rw [show (resultado P).theta_o =
      (List.range (num_pasos P)).map (fun i => (estado P i).theta_o) from rfl]
  simp

lemma res_theta_controlador_length (P : Params) :
    (resultado P).theta_controlador.length = num_pasos P := by
  rw [show (resultado P).theta_controlador =
      (List.range (num_pasos P)).map (fun i => (estado P i).theta_controlador)
    from rfl]
  simp

lemma res_f_length (P : Params) : (resultado P).f.length = num_pasos P := by
  rw [show (resultado P).f =
      (List.range (num_pasos P)).map (fun i => (estado P i).f) from rfl]
  simp

lemma res_error_length (P : Params) :
    (resultado P).error.length = num_pasos P := by
  rw [show (resultado P).error =
      (List.range (num_pasos P)).map (fun i => (estado P i).error) from rfl]
  simp

lemma res_p_total_length (P : Params) :
    (resultado P).p_total.length = num_pasos P := by
  rw [show (resultado P).p_total =
      (List.range (num_pasos P)).map (fun i => (estado P i).p_total) from rfl]
  simp

lemma res_effective_error_length (P : Params) :
    (resultado P).effective_error_for_plotting.length = num_pasos P := by
  rw [show (resultado P).effective_error_for_plotting =
      (List.range (num_pasos P)).map (fun i => (estado P i).effective_error)
    from rfl]
  simp

/-- A nonempty time grid: with a positive step and a positive stop value
`duracion + delta_t`, `np.arange` produces at least one sample. -/
lemma num_pasos_pos (P : Params) (h1 : 0 < P.delta_t)
    (h3 : 0 < P.duracion + P.delta_t) : 1 ≤ num_pasos P := by
  have hq : 0 < (P.duracion + P.delta_t) / P.delta_t := div_pos h3 h1
  have hc : 0 < ⌈(P.duracion + P.delta_t) / P.delta_t⌉ := Int.ceil_pos.mpr hq
  unfold num_pasos
  omega

lemma num_pasos_pequena : num_pasos config_pequena = 3 := by
  rw [num_pasos_eval config_pequena 3 (by norm_num [config_pequena])]
  rfl

lemma simular_pequena :
    simular_air_fryer config_pequena = some (resultado config_pequena) := by
  refine simular_valido _ (by norm_num [config_pequena]) ?_ ?_
  · rw [num_pasos_pequena]; norm_num
  · simp [config_pequena]

lemma estado_pequena_1 :
    estado config_pequena 1 = ⟨200, 200, 20, 160, 0, 160, 160, 160⟩ := by
  rw [show (1 : ℕ) = 0 + 1 from rfl, estado_succ, estado_zero]
  norm_num [paso, saturar, perturbacion_total, tiempo, estado_inicial,
    config_pequena, AMBIENT_TEMPERATURE, StepData.mk.injEq]

lemma num_pasos_tau_negativa : num_pasos config_tau_negativa = 3 := by
  rw [num_pasos_eval config_tau_negativa 3 (by norm_num [config_tau_negativa])]
  rfl

lemma num_pasos_paso_grande : num_pasos config_paso_grande = 2 := by
  rw [num_pasos,
    show (config_paso_grande.duracion + config_paso_grande.delta_t) /
        config_paso_grande.delta_t = (3 : ℚ) / 2
      from by norm_num [config_paso_grande],
    show (⌈(3 : ℚ) / 2⌉ : ℤ) = 2 from by norm_num [Int.ceil_eq_iff]]
  rfl

lemma num_pasos_escenario : num_pasos escenario = 3601 := by
  rw [num_pasos_eval escenario 3601 (by norm_num [escenario])]
  rfl

end Tdc

namespace Tdc

/-! ### The claims -/

/-- Claim C1: at every step `i ≥ 1` the raw error is
`theta_i - theta_o[i-1]`, the effective error is the raw error gated by
the deadband (`error` when `|error| ≥ deadband_threshold`, else `0`),
that single gated value is stored as the last error for the next
derivative, and the stored controller output is the saturation of
`Kp·effective_error + Ki·integral + Kd·(effective_error - previous
effective error)/Δt`, with the post-deadband error on both sides of the
derivative. -/
theorem c1_pid_terminos (P : Params) (i : ℕ) :
    (estado P (i + 1)).error = P.theta_i - (estado P i).theta_o
  ∧ (estado P (i + 1)).effective_error =
      (if P.deadband_threshold ≤ |(estado P (i + 1)).error| then
        (estado P (i + 1)).error else 0)
  ∧ (estado P (i + 1)).ultimo_error = (estado P (i + 1)).effective_error
  ∧ (estado P (i + 1)).theta_controlador =
      saturar (P.kp_c * (estado P (i + 1)).effective_error +
        P.ki_c * (estado P (i + 1)).integral_error +
        P.kd_c * (((estado P (i + 1)).effective_error -
          (estado P i).ultimo_error) / P.delta_t)) := by
  refine ⟨rfl, ?_, rfl, rfl⟩
  rw [estado_succ, paso_effective_error, paso_error]
  rcases lt_or_le |P.theta_i - (estado P i).theta_o| P.deadband_threshold with h | h
  · rw [if_pos h, if_neg (not_le.mpr h)]
  · rw [if_neg (not_lt.mpr h), if_pos h]

/-- Claim C2: at every step `i ≥ 1` the stored plant temperature is one
explicit Euler step
`theta_o[i-1] + ((1/tau)·(theta_c[i] - theta_o[i-1]) + p[i])·Δt`
(computed from the already-saturated controller output and the summed
disturbance), subsequently floored at the ambient temperature. -/
theorem c2_paso_euler (P : Params) (i : ℕ) :
    (estado P (i + 1)).theta_o =
      if (estado P i).theta_o +
          ((1 / P.tau_s) * ((estado P (i + 1)).theta_controlador -
              (estado P i).theta_o) + (estado P (i + 1)).p_total) * P.delta_t <
          AMBIENT_TEMPERATURE
      then AMBIENT_TEMPERATURE
      else (estado P i).theta_o +
          ((1 / P.tau_s) * ((estado P (i + 1)).theta_controlador -
              (estado P i).theta_o) + (estado P (i + 1)).p_total) * P.delta_t := rfl

/-- Counterexample to claim C3: `config_tau_negativa` has `τ = -1 ≤ 0`,
yet `simular_air_fryer` does not fail — it runs to completion and
produces full result series (3 temperature samples), because the source
contains no configuration validation at all. -/
theorem c3_counterexample :
    config_tau_negativa.tau_s ≤ 0
  ∧ simular_air_fryer config_tau_negativa =
      some (resultado config_tau_negativa)
  ∧ (resultado config_tau_negativa).theta_o.length = 3 := by
  refine ⟨by norm_num [config_tau_negativa], ?_, ?_⟩
  · refine simular_valido _ (by norm_num [config_tau_negativa]) ?_ ?_
    · rw [num_pasos_tau_negativa]; norm_num
    · simp [config_tau_negativa]
  · rw [res_theta_o_length, num_pasos_tau_negativa]

/-- Claim C3 amended: `simular_air_fryer` performs no configuration
validation. Whenever `Δt > 0`, `τ ≠ 0` and the time grid is nonempty
(`duracion + Δt > 0`) — in particular for `τ < 0` or a negative duration
above `-Δt` — it computes and returns the complete result series; it
fails (with an unnamed arithmetic or indexing exception, not a named
validation error) only when `Δt = 0`, when the grid is empty, or when
`τ = 0` and the loop body runs. -/
theorem c3_amended_sin_validacion (P : Params) (h1 : 0 < P.delta_t)
    (h2 : P.tau_s ≠ 0) (h3 : 0 < P.duracion + P.delta_t) :
    simular_air_fryer P = some (resultado P)
  ∧ (resultado P).theta_o.length = num_pasos P
  ∧ 1 ≤ num_pasos P :=
  ⟨simular_valido P (ne_of_gt h1)
      (by have := num_pasos_pos P h1 h3; omega)
      (fun hc => h2 hc.1),
    res_theta_o_length P, num_pasos_pos P h1 h3⟩

/-- Witness for the amended C3 at `config_tau_negativa` (an input the
original claim calls invalid): the run succeeds with full series. -/
theorem c3_witness :
    simular_air_fryer config_tau_negativa =
      some (resultado config_tau_negativa)
  ∧ (resultado config_tau_negativa).theta_o.length =
      num_pasos config_tau_negativa
  ∧ 1 ≤ num_pasos config_tau_negativa :=
  c3_amended_sin_validacion config_tau_negativa
    (by norm_num [config_tau_negativa])
    (by norm_num [config_tau_negativa])
    (by norm_num [config_tau_negativa])

/-- Counterexample to claim C4: `config_paso_grande` is a valid
configuration (`Δt = 2 > 0`, `τ > 0`, `duracion = 1 ≥ 0`) whose series
have 2 samples (`np.arange(0, 1 + 2, 2)` is `[0, 2]`), not
`⌊duracion/Δt⌋ + 1 = 1` as the claim states for every valid config. -/
theorem c4_counterexample :
    (0 < config_paso_grande.delta_t ∧ 0 < config_paso_grande.tau_s ∧
      0 ≤ config_paso_grande.duracion)
  ∧ simular_air_fryer config_paso_grande = some (resultado config_paso_grande)
  ∧ (resultado config_paso_grande).tiempo.length = 2
  ∧ ⌊config_paso_grande.duracion / config_paso_grande.delta_t⌋.toNat + 1 = 1
  ∧ (resultado config_paso_grande).tiempo.length ≠
      ⌊config_paso_grande.duracion / config_paso_grande.delta_t⌋.toNat + 1 := by
  have hfloor : ⌊config_paso_grande.duracion / config_paso_grande.delta_t⌋ =
      0 := by
    rw [show config_paso_grande.duracion / config_paso_grande.delta_t =
        (1 : ℚ) / 2 from by norm_num [config_paso_grande]]
    norm_num [Int.floor_eq_iff]
  have hlen : (resultado config_paso_grande).tiempo.length = 2 := by
    rw [res_tiempo_length, num_pasos_paso_grande]
  refine ⟨by norm_num [config_paso_grande], ?_, hlen, ?_, ?_⟩
  · refine simular_valido _ (by norm_num [config_paso_grande]) ?_ ?_
    · rw [num_pasos_paso_grande]; norm_num
    · simp [config_paso_grande]
  · rw [hfloor]; rfl
  · rw [hlen, hfloor]; norm_num

/-- Claim C4 amended: for every valid configuration (`Δt > 0`, `τ > 0`,
`duracion ≥ 0`) the run succeeds, all seven series have length
`n = ⌈(duracion + Δt)/Δt⌉` (the `np.arange` element count) and the time
series is `t_i = i·Δt`; the claim's formula `n = ⌊duracion/Δt⌋ + 1` holds
exactly when `Δt` divides `duracion` — in particular `duracion = 3600`,
`Δt = 1` gives 3601 samples. -/
theorem c4_amended_longitud (P : Params) (h1 : 0 < P.delta_t)
    (h2 : 0 < P.tau_s) (h3 : 0 ≤ P.duracion) :
    simular_air_fryer P = some (resultado P)
  ∧ num_pasos P = (⌈(P.duracion + P.delta_t) / P.delta_t⌉).toNat
  ∧ ((resultado P).tiempo.length = num_pasos P ∧
     (resultado P).theta_o.length = num_pasos P ∧
     (resultado P).theta_controlador.length = num_pasos P ∧
     (resultado P).f.length = num_pasos P ∧
     (resultado P).error.length = num_pasos P ∧
     (resultado P).p_total.length = num_pasos P ∧
     (resultado P).effective_error_for_plotting.length = num_pasos P)
  ∧ (∀ i : ℕ, i < num_pasos P →
      (resultado P).tiempo.get? i = some ((i : ℚ) * P.delta_t))
  ∧ (P.duracion / P.delta_t = (⌊P.duracion / P.delta_t⌋ : ℚ) →
      num_pasos P = ⌊P.duracion / P.delta_t⌋.toNat + 1) := by
  have h3' : 0 < P.duracion + P.delta_t := by linarith
  refine ⟨simular_valido P (ne_of_gt h1)
      (by have := num_pasos_pos P h1 h3'; omega)
      (fun hc => absurd hc.1 (ne_of_gt h2)), rfl,
    ⟨res_tiempo_length P, res_theta_o_length P, res_theta_controlador_length P,
      res_f_length P, res_error_length P, res_p_total_length P,
      res_effective_error_length P⟩, ?_, ?_⟩
  · intro i hi
    rw [res_tiempo_get?, if_pos hi]
    rfl
  · intro hdvd
    have hq0 : (0 : ℚ) ≤ P.duracion / P.delta_t := div_nonneg h3 h1.le
    have hk0 : 0 ≤ ⌊P.duracion / P.delta_t⌋ := Int.floor_nonneg.mpr hq0
    have hstep : (P.duracion + P.delta_t) / P.delta_t =
        ((⌊P.duracion / P.delta_t⌋ + 1 : ℤ) : ℚ) := by
      rw [add_div, div_self (ne_of_gt h1)]
      conv_lhs => rw [hdvd]
      push_cast
      ring
    rw [num_pasos, hstep, Int.ceil_intCast]
    omega

/-- Witness for the amended C4 at the scenario configuration:
`duracion = 3600`, `Δt = 1` gives exactly 3601 time samples, matching
`⌊3600/1⌋ + 1` since the step divides the duration, with `t_0 = 0`. -/
theorem c4_witness :
    simular_air_fryer escenario = some (resultado escenario)
  ∧ num_pasos escenario = 3601
  ∧ (resultado escenario).tiempo.length = 3601
  ∧ (resultado escenario).tiempo.get? 0 = some 0
  ∧ num_pasos escenario = ⌊escenario.duracion / escenario.delta_t⌋.toNat + 1 := by
  have H := c4_amended_longitud escenario (by norm_num [escenario])
    (by norm_num [escenario]) (by norm_num [escenario])
  refine ⟨H.1, num_pasos_escenario, ?_, ?_, ?_⟩
  · rw [H.2.2.1.1, num_pasos_escenario]
  · have hg := H.2.2.2.1 0 (by rw [num_pasos_escenario]; norm_num)
    simpa using hg
  · refine H.2.2.2.2 ?_
    rw [show escenario.duracion / escenario.delta_t = ((3600 : ℤ) : ℚ)
      from by norm_num [escenario], Int.floor_intCast]

/-- Claim C5: the integral accumulator only moves at steps whose
effective error is nonzero (adding `effective_error · Δt`), and is frozen
(not reset) when the effective error is exactly zero; consequently, when
`|setpoint - ambient| < deadband_threshold`, the first controller output
is `0` and the accumulator stays `0` through every step whose raw error
remains inside the deadband. -/
theorem c5_integral_congelada (P : Params) :
    (∀ i : ℕ,
      ((estado P (i + 1)).effective_error = 0 →
        (estado P (i + 1)).integral_error = (estado P i).integral_error)
    ∧ ((estado P (i + 1)).effective_error ≠ 0 →
        (estado P (i + 1)).integral_error =
          (estado P i).integral_error +
            (estado P (i + 1)).effective_error * P.delta_t))
  ∧ (|P.theta_i - AMBIENT_TEMPERATURE| < P.deadband_threshold →
      (estado P 1).theta_controlador = 0
    ∧ ∀ i : ℕ, (∀ j : ℕ, 1 ≤ j → j ≤ i →
          |(estado P j).error| < P.deadband_threshold) →
        (estado P i).integral_error = 0) := by
  constructor
  · intro i
    constructor
    · intro he
      rw [estado_succ] at he ⊢
      rw [paso_integral_error, if_neg (not_not_intro he)]
    · intro he
      rw [estado_succ] at he ⊢
      rw [paso_integral_error, if_pos he]
  · intro hd
    constructor
    · exact (paso_en_banda (s := estado P 0) hd rfl rfl).2.2
    · intro i
      induction i with
      | zero => intro _; rfl
      | succ j ih =>
        intro hj
        have herr : |(estado P (j + 1)).error| < P.deadband_threshold :=
          hj (j + 1) (Nat.le_add_left 1 j) (le_refl _)
        rw [estado_succ, paso_error] at herr
        have heff : (estado P (j + 1)).effective_error = 0 := by
          rw [estado_succ, paso_effective_error, if_pos herr]
        have hfrz : (estado P (j + 1)).integral_error =
            (estado P j).integral_error := by
          rw [estado_succ] at heff ⊢
          rw [paso_integral_error, if_neg (not_not_intro heff)]
        rw [hfrz]
        exact ih (fun j' h1 h2 => hj j' h1 (Nat.le_succ_of_le h2))

/-- Witness for C5 at `config_banda_muerta` (setpoint 22, ambient 20,
deadband 5): the starting error is inside the deadband, the first
controller output is `0`, and the accumulator is still `0` after step 3
since the raw error stays inside the band. -/
theorem c5_witness :
    |config_banda_muerta.theta_i - AMBIENT_TEMPERATURE| <
      config_banda_muerta.deadband_threshold
  ∧ (estado config_banda_muerta 1).theta_controlador = 0
  ∧ (estado config_banda_muerta 3).integral_error = 0 := by
  have hd : |config_banda_muerta.theta_i - AMBIENT_TEMPERATURE| <
      config_banda_muerta.deadband_threshold := by
    norm_num [config_banda_muerta, AMBIENT_TEMPERATURE]
  have e1 : estado config_banda_muerta 1 = ⟨20, 0, 20, 2, 0, 0, 0, 0⟩ := by
    rw [show (1 : ℕ) = 0 + 1 from rfl, estado_succ, estado_zero]
    norm_num [paso, saturar, perturbacion_total, tiempo, estado_inicial,
      config_banda_muerta, AMBIENT_TEMPERATURE, StepData.mk.injEq]
  have e2 : estado config_banda_muerta 2 = ⟨20, 0, 20, 2, 0, 0, 0, 0⟩ := by
    rw [show (2 : ℕ) = 1 + 1 from rfl, estado_succ, e1]
    norm_num [paso, saturar, perturbacion_total, tiempo,
      config_banda_muerta, AMBIENT_TEMPERATURE, StepData.mk.injEq]
  have e3 : estado config_banda_muerta 3 = ⟨20, 0, 20, 2, 0, 0, 0, 0⟩ := by
    rw [show (3 : ℕ) = 2 + 1 from rfl, estado_succ, e2]
    norm_num [paso, saturar, perturbacion_total, tiempo,
      config_banda_muerta, AMBIENT_TEMPERATURE, StepData.mk.injEq]
  have herr : ∀ j : ℕ, 1 ≤ j → j ≤ 3 →
      |(estado config_banda_muerta j).error| <
        config_banda_muerta.deadband_threshold := by
    intro j h1 h3
    interval_cases j <;> simp only [e1, e2, e3] <;>
      norm_num [config_banda_muerta]
  exact ⟨hd, ((c5_integral_congelada config_banda_muerta).2 hd).1,
    ((c5_integral_congelada config_banda_muerta).2 hd).2 3 herr⟩

/-- Claim C6: every stored controller output from step 1 on lies in the
hard-coded saturation band `[0, 200]`, and the saturation touches only
the stored output: the integral accumulator update never involves the
clamp. -/
theorem c6_saturacion (P : Params) (r : Resultado)
    (h : simular_air_fryer P = some r) :
    (∀ i x, 1 ≤ i → r.theta_controlador.get? i = some x → 0 ≤ x ∧ x ≤ 200)
  ∧ (∀ i : ℕ, (estado P (i + 1)).integral_error =
      (estado P i).integral_error +
        (if (estado P (i + 1)).effective_error = 0 then 0
         else (estado P (i + 1)).effective_error * P.delta_t)) := by
  obtain ⟨rfl, -, -, -⟩ := simular_eq_some h
  constructor
  · intro i x h1 hx
    rw [show (resultado P).theta_controlador =
        (List.range (num_pasos P)).map (fun i => (estado P i).theta_controlador)
      from rfl, get?_map_range] at hx
    split_ifs at hx with hi
    obtain ⟨x, rfl⟩ := Option.some.inj hx
    obtain ⟨j, rfl⟩ : ∃ j, i = j + 1 :=
      ⟨i - 1, by omega⟩
    rw [estado_succ, paso_theta_controlador]
    exact saturar_mem _
  · intro i
    rw [estado_succ, paso_integral_error]
    rcases eq_or_ne (paso P (i + 1) (estado P i)).effective_error 0 with h0 | h0
    · rw [if_neg (not_not_intro h0), if_pos h0, add_zero]
    · rw [if_pos h0, if_neg h0]

/-- Witness for C6 at `config_pequena`: the stored output at step 1 is
`200`, inside `[0, 200]`. -/
theorem c6_witness : (0 : ℚ) ≤ 200 ∧ (200 : ℚ) ≤ 200 := by
  have hv : (resultado config_pequena).theta_controlador.get? 1 = some 200 := by
    rw [res_theta_controlador_get?, num_pasos_pequena, if_pos (by norm_num),
      estado_pequena_1]
  exact (c6_saturacion config_pequena (resultado config_pequena)
    simular_pequena).1 1 200 (le_refl 1) hv

/-- Claim C7: every entry of the returned temperature series is at least
the ambient temperature, for every input (disturbances of any sign or
magnitude included). -/
theorem c7_piso_ambiente (P : Params) (r : Resultado)
    (h : simular_air_fryer P = some r) :
    ∀ x ∈ r.theta_o, AMBIENT_TEMPERATURE ≤ x := by
  obtain ⟨rfl, -, -, -⟩ := simular_eq_some h
  intro x hx
  obtain ⟨i, -, rfl⟩ := List.mem_map.mp hx
  exact theta_o_ge_ambiente P i

/-- Witness for C7 at `config_pequena`: the temperature `200` reached at
step 1 is a series entry and lies above the ambient `20`. -/
theorem c7_witness : AMBIENT_TEMPERATURE ≤ (200 : ℚ) := by
  have hm : (200 : ℚ) ∈ (resultado config_pequena).theta_o := by
    rw [show (resultado config_pequena).theta_o =
        (List.range (num_pasos config_pequena)).map
          (fun i => (estado config_pequena i).theta_o) from rfl]
    refine List.mem_map.mpr ⟨1, ?_, ?_⟩
    · rw [num_pasos_pequena]
      exact List.mem_range.mpr (by norm_num)
    · rw [estado_pequena_1]
  exact c7_piso_ambiente config_pequena (resultado config_pequena)
    simular_pequena 200 hm

/-- Claim C8: at each step `i ≥ 1` the stored disturbance `p[i]` is the
sum of the magnitudes of exactly those disturbances whose half-open
window `[start, start + duration)` contains `t_i` (overlaps adding, no
cap); with no disturbances `p[i] = 0` at every index; and in the scenario
with the single disturbance `{600, -2.0, 40}` and `Δt = 1`, `p = -2` for
`t_i ∈ [600, 640)` while `p = 0` at `t_i = 599` and `t_i = 640`. -/
theorem c8_perturbaciones :
    (∀ (P : Params) (i : ℕ), (estado P (i + 1)).p_total =
      (P.perturbaciones_data.map fun d =>
        if d.tiempo ≤ tiempo P (i + 1) ∧ tiempo P (i + 1) < d.tiempo + d.duracion
        then d.valor else 0).sum)
  ∧ (∀ (P : Params) (i : ℕ), P.perturbaciones_data = [] →
      (estado P i).p_total = 0)
  ∧ (∀ i : ℕ, 600 ≤ i → i < 640 → (estado escenario i).p_total = -2)
  ∧ (estado escenario 599).p_total = 0
  ∧ (estado escenario 640).p_total = 0 := by
  refine ⟨?_, ?_, ?_, ?_, ?_⟩
  · intro P i
    rw [estado_succ, paso_p_total, perturbacion_total_eq_sum]
  · intro P i h
    cases i with
    | zero => rfl
    | succ j => rw [estado_succ, paso_p_total, h]; rfl
  · intro i h6 h64
    obtain ⟨j, rfl⟩ : ∃ j, i = j + 1 := ⟨i - 1, by omega⟩
    have ht : tiempo escenario (j + 1) = ((j + 1 : ℕ) : ℚ) := by
      rw [tiempo, show escenario.delta_t = 1 from rfl, mul_one]
    rw [estado_succ, paso_p_total, perturbacion_total_eq_sum,
      show escenario.perturbaciones_data = [⟨600, -2, 40⟩] from rfl]
    simp only [List.map_cons, List.map_nil, List.sum_cons, List.sum_nil, add_zero]
    rw [if_pos]
    refine ⟨?_, ?_⟩
    · rw [ht]; exact_mod_cast h6
    · rw [ht, show ((600 : ℚ) + 40) = 640 from by norm_num]
      exact_mod_cast h64
  · rw [show (599 : ℕ) = 598 + 1 from rfl, estado_succ, paso_p_total]
    norm_num [perturbacion_total, escenario, tiempo]
  · rw [show (640 : ℕ) = 639 + 1 from rfl, estado_succ, paso_p_total]
    norm_num [perturbacion_total, escenario, tiempo]

/-- Witness for C8: the empty-disturbance case at `config_pequena`
step 1, and the scenario disturbance active at `t = 600`. -/
theorem c8_witness :
    (estado config_pequena 1).p_total = 0
  ∧ (estado escenario 600).p_total = -2 :=
  ⟨c8_perturbaciones.2.1 config_pequena 1 rfl,
    c8_perturbaciones.2.2.1 600 (by norm_num) (by norm_num)⟩

/-- Claim C9: at index 0 the temperature series holds the ambient
temperature while the six other series hold 0, and the loop state starts
with a zero integral accumulator and a zero previous effective error. -/
theorem c9_inicializacion (P : Params) (r : Resultado)
    (h : simular_air_fryer P = some r) :
    r.theta_o.get? 0 = some AMBIENT_TEMPERATURE
  ∧ r.theta_controlador.get? 0 = some 0
  ∧ r.f.get? 0 = some 0
  ∧ r.error.get? 0 = some 0
  ∧ r.p_total.get? 0 = some 0
  ∧ r.effective_error_for_plotting.get? 0 = some 0
  ∧ (estado P 0).integral_error = 0
  ∧ (estado P 0).ultimo_error = 0 := by
  obtain ⟨rfl, -, hn, -⟩ := simular_eq_some h
  have h0 : 0 < num_pasos P := Nat.pos_of_ne_zero hn
  refine ⟨?_, ?_, ?_, ?_, ?_, ?_, rfl, rfl⟩
  · rw [res_theta_o_get?, if_pos h0]; rfl
  · rw [res_theta_controlador_get?, if_pos h0]; rfl
  · rw [res_f_get?, if_pos h0]; rfl
  · rw [res_error_get?, if_pos h0]; rfl
  · rw [res_p_total_get?, if_pos h0]; rfl
  · rw [res_effective_error_get?, if_pos h0]; rfl

/-- Witness for C9 at `config_pequena`. -/
theorem c9_witness :
    (resultado config_pequena).theta_o.get? 0 = some AMBIENT_TEMPERATURE
  ∧ (resultado config_pequena).theta_controlador.get? 0 = some 0
  ∧ (estado config_pequena 0).integral_error = 0 := by
  obtain ⟨h1, h2, -, -, -, -, h7, -⟩ :=
    c9_inicializacion config_pequena (resultado config_pequena) simular_pequena
  exact ⟨h1, h2, h7⟩

end Tdc

namespace Tdc

/-! ### Exact loop states of the end-to-end scenario (steps 1–8) -/

lemma estado_escenario_1 : estado escenario 1 =
    ⟨736/35, 200, 20, 160, 0, 160, 160, 160⟩ := by
  rw [show (1 : ℕ) = 0 + 1 from rfl, estado_succ, estado_zero]
  norm_num [paso, saturar, perturbacion_total, tiempo, estado_inicial,
    escenario, AMBIENT_TEMPERATURE, StepData.mk.injEq]

lemma estado_escenario_2 : estado escenario 2 =
    ⟨135064/6125, 200, 736/35, 5564/35, 0, 5564/35, 11164/35, 5564/35⟩ := by
  rw [show (2 : ℕ) = 1 + 1 from rfl, estado_succ, estado_escenario_1]
  norm_num [paso, saturar, perturbacion_total, tiempo, abs_of_nonneg,
    escenario, AMBIENT_TEMPERATURE, StepData.mk.injEq]

lemma estado_escenario_3 : estado escenario 3 =
    ⟨24726136/1071875, 200, 135064/6125, 967436/6125, 0, 967436/6125,
      2921136/6125, 967436/6125⟩ := by
  rw [show (3 : ℕ) = 2 + 1 from rfl, estado_succ, estado_escenario_2]
  norm_num [paso, saturar, perturbacion_total, tiempo, abs_of_nonneg,
    escenario, AMBIENT_TEMPERATURE, StepData.mk.injEq]

lemma estado_escenario_4 : estado escenario 4 =
    ⟨4516722664/187578125, 200, 24726136/1071875, 168211364/1071875, 0,
      168211364/1071875, 679410164/1071875, 168211364/1071875⟩ := by
  rw [show (4 : ℕ) = 3 + 1 from rfl, estado_succ, estado_escenario_3]
  norm_num [paso, saturar, perturbacion_total, tiempo, abs_of_nonneg,
    escenario, AMBIENT_TEMPERATURE, StepData.mk.injEq]

lemma estado_escenario_5 : estado escenario 5 =
    ⟨823425368536/32826171875, 200, 4516722664/187578125,
      29247339836/187578125, 0, 29247339836/187578125,
      148144118536/187578125, 29247339836/187578125⟩ := by
  rw [show (5 : ℕ) = 4 + 1 from rfl, estado_succ, estado_escenario_4]
  norm_num [paso, saturar, perturbacion_total, tiempo, abs_of_nonneg,
    escenario, AMBIENT_TEMPERATURE, StepData.mk.injEq]

lemma estado_escenario_6 : estado escenario 6 =
    ⟨149841248500264/5744580078125, 200, 823425368536/32826171875,
      5085285568964/32826171875, 0, 5085285568964/32826171875,
      31010506312764/32826171875, 5085285568964/32826171875⟩ := by
  rw [show (6 : ℕ) = 5 + 1 from rfl, estado_succ, estado_escenario_5]
  norm_num [paso, saturar, perturbacion_total, tiempo, abs_of_nonneg,
    escenario, AMBIENT_TEMPERATURE, StepData.mk.injEq]

lemma estado_escenario_7 : estado escenario 7 =
    ⟨27221293254670936/1005301513671875, 200, 149841248500264/5744580078125,
      884183165562236/5744580078125, 0, 884183165562236/5744580078125,
      6311021770295936/5744580078125, 884183165562236/5744580078125⟩ := by
  rw [show (7 : ℕ) = 6 + 1 from rfl, estado_succ, estado_escenario_6]
  norm_num [paso, saturar, perturbacion_total, tiempo, abs_of_nonneg,
    escenario, AMBIENT_TEMPERATURE, StepData.mk.injEq]

lemma estado_escenario_8 : estado escenario 8 =
    ⟨4937565329047117864/175927764892578125, 200,
      27221293254670936/1005301513671875, 153732979206266564/1005301513671875,
      0, 153732979206266564/1005301513671875,
      1258161789008055364/1005301513671875,
      153732979206266564/1005301513671875⟩ := by
  rw [show (8 : ℕ) = 7 + 1 from rfl, estado_succ, estado_escenario_7]
  norm_num [paso, saturar, perturbacion_total, tiempo, abs_of_nonneg,
    escenario, AMBIENT_TEMPERATURE, StepData.mk.injEq]

/-- Claim C10: in the end-to-end scenario (setpoint 180, Kp 2, Ki 0.001,
Kd 5, τ 175, Δt 1, duration 3600, deadband 5, ambient 20, one
disturbance `{600, -2, 40}`): the initial temperature is 20; step 1 uses
the effective error `180 - 20 = 160` and stores
`clamp(2·160 + 0.001·(160·1) + 5·(160 - 0)/1, 0, 200) = 200` — the
output saturates at 200 on the first step; and the plant temperature is
strictly increasing over the first eight steps. -/
theorem c10_escenario_extremo_a_extremo :
    (estado escenario 0).theta_o = 20
  ∧ (estado escenario 1).effective_error = 160
  ∧ (estado escenario 1).theta_controlador =
      saturar (2 * 160 + (1/1000) * (160 * 1) + 5 * ((160 - 0) / 1))
  ∧ (estado escenario 1).theta_controlador = 200
  ∧ (estado escenario 0).theta_o < (estado escenario 1).theta_o
  ∧ (estado escenario 1).theta_o < (estado escenario 2).theta_o
  ∧ (estado escenario 2).theta_o < (estado escenario 3).theta_o
  ∧ (estado escenario 3).theta_o < (estado escenario 4).theta_o
  ∧ (estado escenario 4).theta_o < (estado escenario 5).theta_o
  ∧ (estado escenario 5).theta_o < (estado escenario 6).theta_o
  ∧ (estado escenario 6).theta_o < (estado escenario 7).theta_o
  ∧ (estado escenario 7).theta_o < (estado escenario 8).theta_o := by
  refine ⟨rfl, ?_, ?_, ?_, ?_, ?_, ?_, ?_, ?_, ?_, ?_, ?_⟩ <;>
    simp only [estado_zero, estado_inicial, estado_escenario_1,
      estado_escenario_2, estado_escenario_3, estado_escenario_4,
      estado_escenario_5, estado_escenario_6, estado_escenario_7,
      estado_escenario_8] <;>
    norm_num [saturar, AMBIENT_TEMPERATURE]

end Tdc
